import Mathlib

/-!
Verification of `src/web/serve.py` (MADOLA static file server launcher).

The script is straight-line Python:

  web_dir = os.path.dirname(os.path.abspath(__file__))
  os.chdir(web_dir)
  PORT = 8000
  Handler = http.server.SimpleHTTPRequestHandler
  print("Serving MADOLA web app from: " + web_dir)
  print("Open your browser to: http://localhost:" + str(PORT))
  print("Press Ctrl+C to stop the server")
  try:
      with socketserver.TCPServer(("", PORT), Handler) as httpd:
          httpd.serve_forever()
  except KeyboardInterrupt:
      print("\nServer stopped.")
      sys.exit(0)

We embed it as a function from the system environment (script path, initial
working directory, environment variables, argument vector, filesystem) and a
run fate (bind failure / interrupt after some requests / still serving) to the
ordered list of observable effects (chdir, print, bind, serve) together with a
final outcome.  The request handler and the Python runtime's treatment of
unhandled exceptions are standard-library behaviour, not part of src/, and are
modelled from the spec where noted.
-/

/-- An absolute filesystem path, as a list of components below the root. -/
structure AbsPath where
  components : List String
deriving DecidableEq, Repr

/-- A path as Python receives it: possibly relative, with raw components. -/
structure PyPath where
  absolute : Bool
  components : List String
deriving DecidableEq, Repr

/-- One step of POSIX path normalisation over reversed accumulated components:
`.` and empty components vanish, `..` pops (and is absorbed at the root). -/
def normStep (acc : List String) (c : String) : List String :=
  if c = "" ∨ c = "." then acc
  else if c = ".." then acc.tail
  else c :: acc

/-- Normalise a component list (the component-level content of `os.path.normpath`
on an absolute path). -/
def normPath (cs : List String) : List String :=
  (cs.foldl normStep []).reverse

/-- `os.path.abspath`: join against the current working directory when the
path is relative, then normalise. -/
def abspath (cwd : AbsPath) (p : PyPath) : AbsPath :=
  if p.absolute then ⟨normPath p.components⟩
  else ⟨normPath (cwd.components ++ p.components)⟩

/-- `os.path.dirname` on an absolute path: drop the last component. -/
def dirname (p : AbsPath) : AbsPath :=
  ⟨p.components.dropLast⟩

/-- Render an absolute path the way Python prints it. -/
def showPath (p : AbsPath) : String :=
  "/" ++ String.intercalate "/" p.components

/-- The fixed port constant `PORT = 8000` of `serve.py`. -/
def PORT : Nat := 8000

/-- A filesystem snapshot: regular files with their byte contents, and
directories.  Bytes are naturals (each intended < 256). -/
structure FileSystem where
  files : List (AbsPath × List Nat)
  dirs : List AbsPath
deriving DecidableEq, Repr

/-- Contents of the regular file at `p`, if one exists. -/
def findFile (fs : FileSystem) (p : AbsPath) : Option (List Nat) :=
  (fs.files.find? (fun e => decide (e.1 = p))).map Prod.snd

/-- Map a request URL path (as components) onto a filesystem path relative to
the serving root. -/
def resolveRequest (root : AbsPath) (req : List String) : AbsPath :=
  ⟨root.components ++ req⟩

/-- Immediate child entry names of `dir` present in the filesystem. -/
def childrenOf (fs : FileSystem) (dir : AbsPath) : List String :=
  (fs.files.map Prod.fst ++ fs.dirs).filterMap fun p =>
    if p.components.length = dir.components.length + 1 ∧
        p.components.take dir.components.length = dir.components
    then p.components.getLast? else none

/-- Auto-generated HTML directory listing with a hyperlink per child entry. -/
def listingHtml (names : List String) : String :=
  "<html><body><ul>" ++
    String.join (names.map fun n =>
      "<li><a href=\"" ++ n ++ "\">" ++ n ++ "</a></li>") ++
    "</ul></body></html>"

/-- UTF-8 bytes of a string, as naturals. -/
def strBytes (s : String) : List Nat :=
  s.toUTF8.toList.map UInt8.toNat

/-- An HTTP response: status code and body bytes. -/
structure Response where
  status : Nat
  body : List Nat
deriving DecidableEq, Repr

/-- Modelled from the spec: `http.server.SimpleHTTPRequestHandler` is Python
standard-library code, not part of src/.  Spec §4.1: map the URL path onto a
file path relative to the serving root; a regular file is streamed with status
200; a directory yields an auto-generated HTML listing; anything else a 404. -/
def handleGET (fs : FileSystem) (root : AbsPath) (req : List String) : Response :=
  match findFile fs (resolveRequest root req) with
  | some contents => ⟨200, contents⟩
  | none =>
      if resolveRequest root req ∈ fs.dirs then
        ⟨200, strBytes (listingHtml (childrenOf fs (resolveRequest root req)))⟩
      else
        ⟨404, strBytes "404 File not found"⟩

/-- The system environment a run of the script starts in. -/
structure SysEnv where
  scriptPath : PyPath
  cwd0 : AbsPath
  envVars : List (String × String)
  argv : List String
  fs : FileSystem
deriving Repr

/-- `web_dir = os.path.dirname(os.path.abspath(__file__))`. -/
def web_dir (s : SysEnv) : AbsPath :=
  dirname (abspath s.cwd0 s.scriptPath)

/-- An observable effect of the script, in program order. -/
inductive Event where
  | chdir (dir : AbsPath)
  | printLine (line : String)
  | bind (host : String) (port : Nat)
  | serve (req : List String) (resp : Response)
deriving DecidableEq, Repr

/-- How a run ends (or is observed). -/
inductive Outcome where
  | exited (code : Nat)
  | uncaughtException (err : String)
  | stillRunning
deriving DecidableEq, Repr

/-- External fate of a run: the listener bind fails with a non-interrupt
exception; or a KeyboardInterrupt arrives after some requests were served; or
the server is still in `serve_forever` having served some requests. -/
inductive Fate where
  | bindFail (err : String)
  | interrupted (reqs : List (List String))
  | serving (reqs : List (List String))
deriving Repr

/-- A run's observable effects and final outcome. -/
structure RunResult where
  events : List Event
  outcome : Outcome
deriving Repr

/-- The three lines `serve.py` prints before creating the listener. -/
def startupLines (s : SysEnv) : List String :=
  [ "Serving MADOLA web app from: " ++ showPath (web_dir s),
    "Open your browser to: http://localhost:" ++ toString PORT,
    "Press Ctrl+C to stop the server" ]

/-- Effects of the straight-line prefix of `serve.py`: the chdir, then the
three prints. -/
def startupEvents (s : SysEnv) : List Event :=
  Event.chdir (web_dir s) :: (startupLines s).map Event.printLine

/-- Serve events: each request is answered by the static handler with the
process working directory (= `web_dir`) as root. -/
def serveEvents (s : SysEnv) (reqs : List (List String)) : List Event :=
  reqs.map fun r => Event.serve r (handleGET s.fs (web_dir s) r)

/-- The embedding of `serve.py`: effects and outcome of a run under fate `f`.
The `try` block catches only `KeyboardInterrupt`; on it the script prints
one notice and calls `sys.exit(0)`.  Any other exception from binding
propagates out of the script unhandled. -/
def runScript (s : SysEnv) (f : Fate) : RunResult :=
  match f with
  | .bindFail err =>
      ⟨startupEvents s, .uncaughtException err⟩
  | .interrupted reqs =>
      ⟨startupEvents s ++ Event.bind "" PORT :: serveEvents s reqs
          ++ [Event.printLine "\nServer stopped."],
        .exited 0⟩
  | .serving reqs =>
      ⟨startupEvents s ++ Event.bind "" PORT :: serveEvents s reqs,
        .stillRunning⟩

/-- Modelled from the spec: the Python runtime (not part of src/) terminates a
process with an unhandled exception with status 1, and `sys.exit(n)` exits
with status `n`; a still-running process has no exit status yet. -/
def exitStatus : Outcome → Option Nat
  | .exited n => some n
  | .uncaughtException _ => some 1
  | .stillRunning => none

/-- Modelled from the spec: the Python runtime prints a diagnostic traceback
to standard error exactly when an exception propagates unhandled. -/
def tracebackEmitted : Outcome → Bool
  | .uncaughtException _ => true
  | _ => false

/-- Extract the printed line of an event, if it is a print. -/
def printOf : Event → Option String
  | .printLine l => some l
  | _ => none

/-- Is the event anything other than a listener bind? -/
def isNotBind : Event → Bool
  | .bind _ _ => false
  | _ => true

/-- Extract the target directory of an event, if it is a chdir. -/
def chdirOf : Event → Option AbsPath
  | .chdir d => some d
  | _ => none

/-- The lines printed to standard output over a run, in order. -/
def stdoutLines (r : RunResult) : List String :=
  r.events.filterMap printOf

/-- The lines printed strictly before the first listener-bind effect. -/
def linesBeforeBind (events : List Event) : List String :=
  (events.takeWhile isNotBind).filterMap printOf

/-- The sequence of working-directory changes a run performs, in order. -/
def chdirsOf (events : List Event) : List AbsPath :=
  events.filterMap chdirOf

/-- `l` contains `x` as a substring. -/
def containsStr (l x : String) : Prop :=
  ∃ pre suf, l = pre ++ x ++ suf

/-- A concrete example environment used to instantiate the theorems:
the script lives at `/home/app/web/serve.py`, so the serving root is
`/home/app/web`, which holds `index.html` (bytes `[104, 105]`). -/
def exEnv : SysEnv :=
  { scriptPath := ⟨true, ["home", "app", "web", "serve.py"]⟩
    cwd0 := ⟨["home"]⟩
    envVars := []
    argv := ["serve.py"]
    fs := { files := [(⟨["home", "app", "web", "index.html"]⟩, [104, 105])]
            dirs := [⟨["home", "app", "web"]⟩] } }

/-- The literal reading of spec §4.1's printing contract: before the listener
is created, exactly two lines are printed, one containing the serving root and
one containing the browsable URL. -/
def claimC6Literal (s : SysEnv) (f : Fate) : Prop :=
  (linesBeforeBind (runScript s f).events).length = 2 ∧
  (∃ l ∈ linesBeforeBind (runScript s f).events,
    containsStr l (showPath (web_dir s))) ∧
  (∃ l ∈ linesBeforeBind (runScript s f).events,
    containsStr l ("http://localhost:" ++ toString PORT))

/-- No serve event occurs among the startup effects. -/
theorem serve_not_startup {s : SysEnv} {req : List String} {resp : Response} :
    Event.serve req resp ∉ startupEvents s := by
  simp [startupEvents, startupLines]

/-- No bind event occurs among the startup effects. -/
theorem bind_not_startup {s : SysEnv} {host : String} {port : Nat} :
    Event.bind host port ∉ startupEvents s := by
  simp [startupEvents, startupLines]

/-- No bind event occurs among the serve events. -/
theorem bind_not_serve {s : SysEnv} {reqs : List (List String)} {host : String}
    {port : Nat} : Event.bind host port ∉ serveEvents s reqs := by
  simp [serveEvents]

/-- A serve event among the serve events answers with the handler's response. -/
theorem mem_serveEvents {s : SysEnv} {reqs : List (List String)} {req : List String}
    {resp : Response} (h : Event.serve req resp ∈ serveEvents s reqs) :
    resp = handleGET s.fs (web_dir s) req := by
  simp only [serveEvents, List.mem_map] at h
  obtain ⟨r, _, hr⟩ := h
  obtain ⟨hreq, hresp⟩ := Event.serve.inj hr
  subst hreq
  exact hresp.symm

/-- Every serve event of any run carries the response the static handler
computes relative to `web_dir`. -/
theorem serve_resp_eq {s : SysEnv} {f : Fate} {req : List String} {resp : Response}
    (h : Event.serve req resp ∈ (runScript s f).events) :
    resp = handleGET s.fs (web_dir s) req := by
  cases f with
  | bindFail err =>
      simp only [runScript] at h
      exact absurd h serve_not_startup
  | interrupted reqs =>
      simp only [runScript, List.mem_append, List.mem_cons, List.mem_singleton] at h
      rcases h with (h | h | h) | h | h
      · exact absurd h serve_not_startup
      · exact Event.noConfusion h
      · exact mem_serveEvents h
      · exact Event.noConfusion h
      · exact absurd h (List.not_mem_nil _)
  | serving reqs =>
      simp only [runScript, List.mem_append, List.mem_cons] at h
      rcases h with h | h | h
      · exact absurd h serve_not_startup
      · exact Event.noConfusion h
      · exact mem_serveEvents h

/-- Every bind event of any run binds the wildcard host on `PORT`. -/
theorem bind_host_port {s : SysEnv} {f : Fate} {host : String} {port : Nat}
    (h : Event.bind host port ∈ (runScript s f).events) :
    host = "" ∧ port = PORT := by
  cases f with
  | bindFail err =>
      simp only [runScript] at h
      exact absurd h bind_not_startup
  | interrupted reqs =>
      simp only [runScript, List.mem_append, List.mem_cons, List.mem_singleton] at h
      rcases h with (h | h | h) | h | h
      · exact absurd h bind_not_startup
      · exact Event.bind.inj h
      · exact absurd h bind_not_serve
      · exact Event.noConfusion h
      · exact absurd h (List.not_mem_nil _)
  | serving reqs =>
      simp only [runScript, List.mem_append, List.mem_cons] at h
      rcases h with h | h | h
      · exact absurd h bind_not_startup
      · exact Event.bind.inj h
      · exact absurd h bind_not_serve

/-- In every run, the lines printed before the first bind are exactly the
three startup lines. -/
theorem linesBeforeBind_run (s : SysEnv) (f : Fate) :
    linesBeforeBind (runScript s f).events = startupLines s := by
  cases f <;>
    simp [linesBeforeBind, runScript, startupEvents, startupLines, isNotBind, printOf]

/-- Standard output of an interrupted run: the startup lines, then the single
stop notice. -/
theorem stdout_interrupted (s : SysEnv) (reqs : List (List String)) :
    stdoutLines (runScript s (Fate.interrupted reqs)) =
      startupLines s ++ ["\nServer stopped."] := by
  simp [stdoutLines, runScript, startupEvents, startupLines, serveEvents, printOf,
    List.filterMap_append, List.filterMap_map, Function.comp]

/-- Standard output of a run whose bind fails: exactly the startup lines. -/
theorem stdout_bindFail (s : SysEnv) (err : String) :
    stdoutLines (runScript s (Fate.bindFail err)) = startupLines s := by
  simp [stdoutLines, runScript, startupEvents, startupLines, printOf]

/-- Every run changes the working directory exactly once, to `web_dir`. -/
theorem chdirsOf_run (s : SysEnv) (f : Fate) :
    chdirsOf (runScript s f).events = [web_dir s] := by
  cases f <;>
    simp [chdirsOf, runScript, startupEvents, startupLines, serveEvents, chdirOf,
      List.filterMap_append, List.filterMap_map, Function.comp]

/-- The stop notice is not one of the three startup lines. -/
theorem notice_not_startup (s : SysEnv) :
    "\nServer stopped." ∉ startupLines s := by
  intro h
  simp only [startupLines, List.mem_cons, List.not_mem_nil, or_false] at h
  rcases h with h | h | h
  · have hlen := congrArg String.length h
    rw [String.length_append] at hlen
    have h1 : ("\nServer stopped." : String).length = 16 := rfl
    have h2 : ("Serving MADOLA web app from: " : String).length = 29 := rfl
    omega
  · exact absurd h (by decide)
  · exact absurd h (by decide)

/-- C1: for every file `f` that exists under the serving root, a GET for `/f`
in any run of the server is answered with status 200 and a byte-identical
copy of `f`'s contents. -/
theorem C1_get_existing_file (s : SysEnv) (f : Fate) (req : List String)
    (resp : Response) (contents : List Nat)
    (hmem : Event.serve req resp ∈ (runScript s f).events)
    (hfile : findFile s.fs (resolveRequest (web_dir s) req) = some contents) :
    resp.status = 200 ∧ resp.body = contents := by
  have h := serve_resp_eq hmem
  subst h
  simp [handleGET, hfile]

/-- Witness for C1 at the concrete example environment: `index.html` holds
bytes `[104, 105]` and is served back verbatim with status 200. -/
theorem C1_get_existing_file_witness :
    (handleGET exEnv.fs (web_dir exEnv) ["index.html"]).status = 200 ∧
    (handleGET exEnv.fs (web_dir exEnv) ["index.html"]).body = [104, 105] :=
  C1_get_existing_file exEnv (Fate.serving [["index.html"]]) ["index.html"]
    (handleGET exEnv.fs (web_dir exEnv) ["index.html"]) [104, 105]
    (by decide) (by decide)

/-- C2: at startup, before any request is served, the run's first effect is
the chdir to the resolved absolute directory of the launch script, and that
directory is the effective serving root of every request actually served. -/
theorem C2_chdir_is_first_effect (s : SysEnv) (f : Fate) :
    (runScript s f).events.head? =
      some (Event.chdir (dirname (abspath s.cwd0 s.scriptPath))) ∧
    ∀ req resp, Event.serve req resp ∈ (runScript s f).events →
      resp = handleGET s.fs (dirname (abspath s.cwd0 s.scriptPath)) req := by
  refine ⟨?_, fun req resp h => serve_resp_eq h⟩
  cases f <;> rfl

/-- Witness for C2 at the concrete example environment. -/
theorem C2_chdir_is_first_effect_witness :
    (runScript exEnv (Fate.serving [["index.html"]])).events.head? =
      some (Event.chdir (dirname (abspath exEnv.cwd0 exEnv.scriptPath))) ∧
    handleGET exEnv.fs (web_dir exEnv) ["index.html"] =
      handleGET exEnv.fs (dirname (abspath exEnv.cwd0 exEnv.scriptPath))
        ["index.html"] :=
  ⟨(C2_chdir_is_first_effect exEnv (Fate.serving [["index.html"]])).1,
    (C2_chdir_is_first_effect exEnv (Fate.serving [["index.html"]])).2
      ["index.html"] (handleGET exEnv.fs (web_dir exEnv) ["index.html"])
      (by decide)⟩

/-- C3: the port is the constant 8000, and the run is identical for every
environment-variable list and argument vector: neither is read. -/
theorem C3_fixed_port_no_config (sp : PyPath) (cwd : AbsPath) (fs : FileSystem)
    (env1 env2 : List (String × String)) (argv1 argv2 : List String) (f : Fate)
    (host : String) (port : Nat)
    (hbind : Event.bind host port ∈ (runScript ⟨sp, cwd, env1, argv1, fs⟩ f).events) :
    PORT = 8000 ∧
    runScript ⟨sp, cwd, env1, argv1, fs⟩ f = runScript ⟨sp, cwd, env2, argv2, fs⟩ f ∧
    port = 8000 ∧
    web_dir ⟨sp, cwd, env1, argv1, fs⟩ = web_dir ⟨sp, cwd, env2, argv2, fs⟩ := by
  refine ⟨rfl, ?_, (bind_host_port hbind).2, rfl⟩
  cases f <;> rfl

/-- Witness for C3: overriding environment variables and arguments changes
nothing about the run. -/
theorem C3_fixed_port_no_config_witness :
    PORT = 8000 ∧
    runScript ⟨exEnv.scriptPath, exEnv.cwd0, [], [], exEnv.fs⟩ (Fate.serving []) =
      runScript ⟨exEnv.scriptPath, exEnv.cwd0, [("PORT", "9999")],
        ["--port", "9999"], exEnv.fs⟩ (Fate.serving []) ∧
    (8000 : Nat) = 8000 ∧
    web_dir ⟨exEnv.scriptPath, exEnv.cwd0, [], [], exEnv.fs⟩ =
      web_dir ⟨exEnv.scriptPath, exEnv.cwd0, [("PORT", "9999")],
        ["--port", "9999"], exEnv.fs⟩ :=
  C3_fixed_port_no_config exEnv.scriptPath exEnv.cwd0 exEnv.fs []
    [("PORT", "9999")] [] ["--port", "9999"] (Fate.serving []) "" 8000
    (by decide)

/-- C4: a KeyboardInterrupt while the server runs makes the process print the
single stop notice after the startup lines and exit with code 0. -/
theorem C4_interrupt_clean_exit (s : SysEnv) (reqs : List (List String)) :
    (runScript s (Fate.interrupted reqs)).outcome = Outcome.exited 0 ∧
    exitStatus (runScript s (Fate.interrupted reqs)).outcome = some 0 ∧
    stdoutLines (runScript s (Fate.interrupted reqs)) =
      startupLines s ++ ["\nServer stopped."] ∧
    (stdoutLines (runScript s (Fate.interrupted reqs))).count "\nServer stopped." = 1 := by
  refine ⟨rfl, rfl, stdout_interrupted s reqs, ?_⟩
  rw [stdout_interrupted, List.count_append,
    List.count_eq_zero.mpr (notice_not_startup s)]
  rfl

/-- C5: a startup fault other than an interrupt is not caught: the run ends
with the exception uncaught, a positive exit status and a runtime traceback. -/
theorem C5_bind_failure_uncaught (s : SysEnv) (err : String) :
    (runScript s (Fate.bindFail err)).outcome = Outcome.uncaughtException err ∧
    (∃ n, exitStatus (runScript s (Fate.bindFail err)).outcome = some n ∧ 0 < n) ∧
    tracebackEmitted (runScript s (Fate.bindFail err)).outcome = true :=
  ⟨rfl, ⟨1, rfl, Nat.one_pos⟩, rfl⟩

/-- C6 counterexample: at the concrete example environment the program prints
three lines before the serve loop, not two, refuting the claim as stated. -/
theorem C6_two_lines_counterexample :
    ¬ claimC6Literal exEnv (Fate.serving []) := by
  intro h
  have hlen := h.1
  rw [linesBeforeBind_run] at hlen
  exact absurd hlen (by decide)

/-- C6 (amended): before the listener is created the program prints exactly
three lines: one containing the resolved serving root, one containing the
browsable URL `http://localhost:<port>`, and a final advisory line on how to
stop the server. -/
theorem C6_three_startup_lines (s : SysEnv) (f : Fate) :
    ∃ l1 l2 l3, linesBeforeBind (runScript s f).events = [l1, l2, l3] ∧
      containsStr l1 (showPath (web_dir s)) ∧
      containsStr l2 ("http://localhost:" ++ toString PORT) ∧
      l3 = "Press Ctrl+C to stop the server" := by
  refine ⟨"Serving MADOLA web app from: " ++ showPath (web_dir s),
    "Open your browser to: http://localhost:" ++ toString PORT,
    "Press Ctrl+C to stop the server", ?_, ?_, ?_, rfl⟩
  · rw [linesBeforeBind_run]; rfl
  · exact ⟨"Serving MADOLA web app from: ", "", by rw [String.append_empty]⟩
  · exact ⟨"Open your browser to: ", "", by decide⟩

/-- C7: every listener bind of every run is to the empty-string wildcard host
on port 8000. -/
theorem C7_bind_wildcard (s : SysEnv) (f : Fate) (host : String) (port : Nat)
    (h : Event.bind host port ∈ (runScript s f).events) :
    host = "" ∧ port = 8000 ∧ Event.bind "" 8000 ∈ (runScript s f).events := by
  obtain ⟨h1, h2⟩ := bind_host_port h
  subst h1
  subst h2
  exact ⟨rfl, rfl, h⟩

/-- Witness for C7 at the concrete example environment. -/
theorem C7_bind_wildcard_witness :
    ("" : String) = "" ∧ (8000 : Nat) = 8000 ∧
    Event.bind "" 8000 ∈ (runScript exEnv (Fate.serving [])).events :=
  C7_bind_wildcard exEnv (Fate.serving []) "" 8000 (by decide)

/-- C8: the serving root is resolved exactly once: every run performs exactly
one chdir, to the resolved script directory, and every served request observes
that same root. -/
theorem C8_root_resolved_once (s : SysEnv) (f : Fate) :
    chdirsOf (runScript s f).events = [dirname (abspath s.cwd0 s.scriptPath)] ∧
    ∀ req resp, Event.serve req resp ∈ (runScript s f).events →
      resp = handleGET s.fs (dirname (abspath s.cwd0 s.scriptPath)) req :=
  ⟨chdirsOf_run s f, fun _ _ h => serve_resp_eq h⟩

/-- Witness for C8 at the concrete example environment. -/
theorem C8_root_resolved_once_witness :
    chdirsOf (runScript exEnv (Fate.interrupted [["index.html"]])).events =
      [dirname (abspath exEnv.cwd0 exEnv.scriptPath)] ∧
    handleGET exEnv.fs (web_dir exEnv) ["index.html"] =
      handleGET exEnv.fs (dirname (abspath exEnv.cwd0 exEnv.scriptPath))
        ["index.html"] :=
  ⟨(C8_root_resolved_once exEnv (Fate.interrupted [["index.html"]])).1,
    (C8_root_resolved_once exEnv (Fate.interrupted [["index.html"]])).2
      ["index.html"] (handleGET exEnv.fs (web_dir exEnv) ["index.html"])
      (by decide)⟩

/-- C9: the startup lines (among them one containing the serving root and one
containing the URL) are printed before the listener is created, and a run
whose bind fails has already printed all of them. -/
theorem C9_prints_precede_bind (s : SysEnv) (f : Fate) (err : String) :
    linesBeforeBind (runScript s f).events = startupLines s ∧
    stdoutLines (runScript s (Fate.bindFail err)) = startupLines s ∧
    (∃ l ∈ startupLines s, containsStr l (showPath (web_dir s))) ∧
    (∃ l ∈ startupLines s, containsStr l ("http://localhost:" ++ toString PORT)) := by
  refine ⟨linesBeforeBind_run s f, stdout_bindFail s err, ?_, ?_⟩
  · exact ⟨"Serving MADOLA web app from: " ++ showPath (web_dir s),
      by simp [startupLines],
      ⟨"Serving MADOLA web app from: ", "", by rw [String.append_empty]⟩⟩
  · exact ⟨"Open your browser to: http://localhost:" ++ toString PORT,
      by simp [startupLines],
      ⟨"Open your browser to: ", "", by decide⟩⟩

/-- C10: every run, including one whose bind fails and ends with a positive
exit status, begins by changing the working directory to the script's
directory, and no run ever changes it again. -/
theorem C10_chdir_before_bind_never_restored (s : SysEnv) (f : Fate) (err : String) :
    (runScript s f).events.head? =
      some (Event.chdir (dirname (abspath s.cwd0 s.scriptPath))) ∧
    chdirsOf (runScript s f).events = [dirname (abspath s.cwd0 s.scriptPath)] ∧
    (runScript s (Fate.bindFail err)).events.head? =
      some (Event.chdir (dirname (abspath s.cwd0 s.scriptPath))) ∧
    (∃ n, exitStatus (runScript s (Fate.bindFail err)).outcome = some n ∧ 0 < n) := by
  refine ⟨?_, chdirsOf_run s f, rfl, ⟨1, rfl, Nat.one_pos⟩⟩
  cases f <;> rfl
